import Mathlib

/-!
# Solar versus utility cost calculator: `src/script.js`

A shallow embedding of the two functions of `script.js` that carry logic,
`calculateCosts` and `drawChart`, with the properties of the written
specification stated over them.

Modelling conventions.

* Finite JavaScript numbers are exact rationals (`ℚ`): rounding and overflow
  of IEEE doubles are not modelled.  A statement that would be false of
  doubles that overflow or leave the normal range carries the bounds
  `doubleMinNormal` and `doubleSafeMax` as hypotheses.
* `parseFloat` and `parseInt` are host functions.  Their result is the input
  of the model: `none` is `NaN` (the text did not parse), `some q` is the
  finite number that was read.
* Where the source can produce `NaN` or an infinity (`Math.max()` of no
  argument is `-Infinity`), the value is a `JSNum`.  Signed zeros are not
  tracked.
* `formatCurrency` (a wrapper of `Intl.NumberFormat`) is not modelled: the
  model records the number handed to it.
* Of the drawing commands of `drawChart` the model keeps the scales, the
  y-axis ticks and the x-axis labels; axes, polylines, fills and the legend
  are not recorded.
-/

namespace SolarCalc

/-! ## JavaScript numbers -/

/-- A JavaScript number: `NaN`, the two infinities, or a finite value. -/
inductive JSNum where
  | nan
  | negInf
  | posInf
  | fin (q : ℚ)
  deriving DecidableEq

namespace JSNum

/-- Truthiness of a number: `NaN` and zero are falsy. -/
def truthy : JSNum → Bool
  | nan => false
  | fin q => decide (q ≠ 0)
  | _ => true

/-- The expression `a || b` on numbers. -/
def orElse (a b : JSNum) : JSNum :=
  if a.truthy then a else b

/-- An infinity of the sign of `q * s`, where `s` is `1` for `pos = true` and
`-1` otherwise; `NaN` when `q = 0`. -/
def infTimes (pos : Bool) (q : ℚ) : JSNum :=
  if q = 0 then nan
  else if decide (0 < q) = pos then posInf else negInf

/-- The product `a * b`. -/
def mul : JSNum → JSNum → JSNum
  | nan, _ => nan
  | _, nan => nan
  | fin p, fin q => fin (p * q)
  | posInf, fin q => infTimes true q
  | negInf, fin q => infTimes false q
  | fin p, posInf => infTimes true p
  | fin p, negInf => infTimes false p
  | posInf, posInf => posInf
  | negInf, negInf => posInf
  | posInf, negInf => negInf
  | negInf, posInf => negInf

/-- The quotient `a / b`.  A zero divisor is taken as `+0`. -/
def div : JSNum → JSNum → JSNum
  | nan, _ => nan
  | _, nan => nan
  | fin p, fin q =>
      if q = 0 then
        (if p = 0 then nan else if 0 < p then posInf else negInf)
      else fin (p / q)
  | fin _, posInf => fin 0
  | fin _, negInf => fin 0
  | posInf, fin q => if 0 ≤ q then posInf else negInf
  | negInf, fin q => if 0 ≤ q then negInf else posInf
  | posInf, posInf => nan
  | posInf, negInf => nan
  | negInf, posInf => nan
  | negInf, negInf => nan

/-- The difference `a - b`. -/
def sub : JSNum → JSNum → JSNum
  | nan, _ => nan
  | _, nan => nan
  | fin p, fin q => fin (p - q)
  | fin _, posInf => negInf
  | fin _, negInf => posInf
  | posInf, fin _ => posInf
  | negInf, fin _ => negInf
  | posInf, posInf => nan
  | negInf, negInf => nan
  | posInf, negInf => posInf
  | negInf, posInf => negInf

/-- The test `Number.isFinite`. -/
def isFinite : JSNum → Bool
  | fin _ => true
  | _ => false

end JSNum

/-- The call `Math.max(...values)` on finite values: `-Infinity` when there is
no argument, else the largest argument. -/
def mathMax : List ℚ → JSNum
  | [] => JSNum.negInf
  | x :: xs => JSNum.fin (xs.foldl max x)

/-! ## Loops -/

/-- Indices visited by `for (let i = start; cond(i); i++)`, in order, with at
most `fuel` iterations. -/
def forIndices (cond : ℕ → Bool) : ℕ → ℕ → List ℕ
  | 0, _ => []
  | fuel + 1, i => if cond i then i :: forIndices cond fuel (i + 1) else []

/-! ## `calculateCosts` -/

/-- The expression `x || 0` on a parsed number: `NaN` and zero give `0`, every
other number gives itself. -/
def orZero (x : Option ℚ) : ℚ :=
  match x with
  | none => 0
  | some q => if q ≠ 0 then q else 0

/-- The expression `x || 0` on a parsed integer. -/
def orZeroInt (x : Option ℤ) : ℤ :=
  match x with
  | none => 0
  | some z => if z ≠ 0 then z else 0

/-- What `calculateCosts` reads: the results of parsing the four form fields,
and the rendered size of the canvas. -/
structure Inputs where
  /-- Result of `parseFloat(billInput.value)`. -/
  bill : Option ℚ
  /-- Result of `parseFloat(solarInput.value)`. -/
  solarPayment : Option ℚ
  /-- Result of `parseInt(yearsRange.value, 10)`. -/
  yearsRange : Option ℤ
  /-- Result of `parseFloat(solarEscalatorSelect.value)`. -/
  solarEscalator : Option ℚ
  /-- Width of the canvas rectangle. -/
  canvasWidth : ℚ
  /-- Height of the canvas rectangle. -/
  canvasHeight : ℚ

/-- Fixed utility annual rate increase (9% per year). -/
def UTILITY_RATE : ℚ := 9 / 100

/-- The variables the projection loop of `calculateCosts` updates. -/
structure LoopState where
  labels : List String
  utilityAnnualCosts : List ℚ
  solarAnnualCosts : List ℚ
  totalUtility : ℚ
  totalSolar : ℚ

/-- The state before the first iteration. -/
def LoopState.init : LoopState :=
  { labels := [], utilityAnnualCosts := [], solarAnnualCosts := [],
    totalUtility := 0, totalSolar := 0 }

/-- One iteration of the projection loop, for the year index `year`. -/
def loopBody (monthlyBill solarMonthly utilityRate solarEscalator : ℚ)
    (st : LoopState) (year : ℕ) : LoopState :=
  let utilityMonthlyForYear := monthlyBill * (1 + utilityRate) ^ year
  let solarMonthlyForYear := solarMonthly * (1 + solarEscalator) ^ year
  let utilityAnnual := utilityMonthlyForYear * 12
  let solarAnnual := solarMonthlyForYear * 12
  { labels := st.labels ++ ["Year " ++ toString (year + 1)]
    utilityAnnualCosts := st.utilityAnnualCosts ++ [utilityAnnual]
    solarAnnualCosts := st.solarAnnualCosts ++ [solarAnnual]
    totalUtility := st.totalUtility + utilityAnnual
    totalSolar := st.totalSolar + solarAnnual }

/-- The loop `for (let year = 0; year < years; year++)` of `calculateCosts`. -/
def costLoop (monthlyBill solarMonthly utilityRate solarEscalator : ℚ)
    (years : ℤ) : LoopState :=
  (forIndices (fun year => decide ((year : ℤ) < years)) (years.toNat + 1) 0).foldl
    (loopBody monthlyBill solarMonthly utilityRate solarEscalator) LoopState.init

/-- The text written to `yearlyDetailsEl`. -/
inductive YearlyDetails where
  /-- The final-year sentence, with the numbers it formats.  `yearSavings` is
  `none` when an array read is out of range (`undefined - undefined`). -/
  | snapshot (years : ℤ) (currentUtilityMonthly currentSolarMonthly monthSavings : ℚ)
      (yearSavings : Option ℚ)
  /-- The text `Select a timeline to view annual costs.` -/
  | selectTimeline
  deriving DecidableEq

/-- Whether the final-year snapshot was written. -/
def YearlyDetails.isSnapshot : YearlyDetails → Bool
  | snapshot .. => true
  | selectTimeline => false

/-! ## `drawChart` -/

/-- What `drawChart` computes and draws. -/
structure Chart where
  maxVal : JSNum
  yScale : JSNum
  xScale : ℚ
  /-- One entry per y-axis tick, in drawing order: the value that is
  labelled and the vertical position of the mark. -/
  yTicks : List (JSNum × JSNum)
  /-- One entry per x-axis label drawn: the index, the text, the horizontal
  position. -/
  xLabels : List (ℕ × String × ℚ)

/-- The label stride `Math.max(1, Math.ceil(labels.length / maxLabels))`. -/
def labelStep (labelCount : ℕ) : ℕ :=
  let maxLabels : ℕ := 10
  max 1 ⌈(labelCount : ℚ) / (maxLabels : ℚ)⌉₊

/-- Indices `i` of the x-axis labels that `drawChart` draws, in order. -/
def drawnLabelIndices (labels : List String) : List ℕ :=
  let step := labelStep labels.length
  (forIndices (fun i => decide (i < labels.length)) (labels.length + 1) 0).filter
    (fun i => decide (i % step = 0) || decide ((i : ℤ) = (labels.length : ℤ) - 1))

/-- The function `drawChart(labels, utilityData, solarData)` on a canvas of
width `w` and height `h`. -/
def drawChart (w h : ℚ) (labels : List String) (utilityData solarData : List ℚ) : Chart :=
  let padLeft : ℚ := 50
  let padRight : ℚ := 20
  let padTop : ℚ := 20
  let padBottom : ℚ := 50
  let allValues := utilityData ++ solarData
  let maxVal := ((mathMax allValues).mul (JSNum.fin (11 / 10))).orElse (JSNum.fin 1)
  let yScale := (JSNum.fin (h - padTop - padBottom)).div maxVal
  let xCount := labels.length
  let xScale : ℚ := if xCount > 1 then (w - padLeft - padRight) / ((xCount : ℚ) - 1) else 0
  let tickCount : ℕ := 5
  let yTicks := (forIndices (fun i => decide (i ≤ tickCount)) (tickCount + 2) 0).map fun i =>
    let value := (maxVal.div (JSNum.fin tickCount)).mul (JSNum.fin i)
    let y := (JSNum.fin (h - padBottom)).sub (yScale.mul value)
    (value, y)
  let xLabels := (drawnLabelIndices labels).map fun i =>
    (i, labels.getD i "", padLeft + xScale * i)
  { maxVal := maxVal, yScale := yScale, xScale := xScale, yTicks := yTicks, xLabels := xLabels }

/-- What `calculateCosts` writes to the page. -/
structure Costs where
  labels : List String
  utilityAnnualCosts : List ℚ
  solarAnnualCosts : List ℚ
  /-- The number formatted into `totalUtilityEl`. -/
  totalUtility : ℚ
  /-- The number formatted into `totalSolarEl`. -/
  totalSolar : ℚ
  /-- The number formatted into `savingsEl`. -/
  difference : ℚ
  yearlyDetails : YearlyDetails
  chart : Chart

/-- The function `calculateCosts()`. -/
def calculateCosts (inp : Inputs) : Costs :=
  let monthlyBill := orZero inp.bill
  let solarMonthly := orZero inp.solarPayment
  let years := orZeroInt inp.yearsRange
  let utilityRate := UTILITY_RATE
  let solarEscalator := orZero (inp.solarEscalator.map (· / 100))
  let st := costLoop monthlyBill solarMonthly utilityRate solarEscalator years
  let difference := st.totalUtility - st.totalSolar
  let yearlyDetails :=
    if years > 0 then
      let index := years - 1
      let currentUtilityMonthly := monthlyBill * (1 + utilityRate) ^ index
      let currentSolarMonthly := solarMonthly * (1 + solarEscalator) ^ index
      let monthSavings := currentUtilityMonthly - currentSolarMonthly
      let yearSavings :=
        match st.utilityAnnualCosts[index.toNat]?, st.solarAnnualCosts[index.toNat]? with
        | some u, some s => some (u - s)
        | _, _ => none
      YearlyDetails.snapshot years currentUtilityMonthly currentSolarMonthly monthSavings
        yearSavings
    else YearlyDetails.selectTimeline
  { labels := st.labels
    utilityAnnualCosts := st.utilityAnnualCosts
    solarAnnualCosts := st.solarAnnualCosts
    totalUtility := st.totalUtility
    totalSolar := st.totalSolar
    difference := difference
    yearlyDetails := yearlyDetails
    chart := drawChart inp.canvasWidth inp.canvasHeight st.labels st.utilityAnnualCosts
      st.solarAnnualCosts }

/-! ## The range of doubles -/

/-- The power of two `2^1023`.  A number of magnitude at most `2^1023` is
below `Number.MAX_VALUE` (about `1.8 * 2^1023`) with room for rounding. -/
def doubleSafeMax : ℚ := 2 ^ 1023

/-- The smallest positive normal double, `2^-1022`. -/
def doubleMinNormal : ℚ := 1 / 2 ^ 1022

/-! ## Closed forms used in the statements -/

/-- Closed form of the annual cost pushed at the year index `i`, for a monthly
amount and an annual rate. -/
def annualAt (monthly rate : ℚ) (i : ℕ) : ℚ :=
  monthly * (1 + rate) ^ i * 12

/-- Closed form of the label pushed at the year index `i`. -/
def yearLabel (i : ℕ) : String :=
  "Year " ++ toString (i + 1)

/-- The solar rate `calculateCosts` uses: the parsed percentage over 100, or 0. -/
def solarRate (inp : Inputs) : ℚ :=
  orZero (inp.solarEscalator.map (· / 100))

/-! ## Loop lemmas -/

/-- With fuel to spare, a counting loop bounded by `i < n` visits exactly the
indices from `start` up to `n`, and stops because its condition fails. -/
theorem forIndices_lt_eq_range' (cond : ℕ → Bool) (n : ℕ)
    (hc : ∀ i, cond i = decide (i < n)) :
    ∀ fuel start, n - start < fuel →
      forIndices cond fuel start = List.range' start (n - start) := by
  intro fuel
  induction fuel with
  | zero => intro start h; omega
  | succ fuel ih =>
    intro start h
    unfold forIndices
    by_cases hlt : start < n
    · have hstep : n - start = (n - (start + 1)) + 1 := by omega
      rw [hc start, decide_eq_true hlt, if_pos rfl, ih (start + 1) (by omega), hstep]
      rfl
    · have hz : n - start = 0 := by omega
      rw [hc start, decide_eq_false hlt, hz]
      rfl

/-- A loop `for (i = 0; i < n; i++)` run with `n + 1` units of fuel visits
`0, 1, ..., n - 1`. -/
theorem forIndices_lt_eq_range (cond : ℕ → Bool) (n : ℕ)
    (hc : ∀ i, cond i = decide (i < n)) :
    forIndices cond (n + 1) 0 = List.range n := by
  rw [forIndices_lt_eq_range' cond n hc (n + 1) 0 (by omega), List.range_eq_range']
  rfl

/-- More fuel does not change what a bounded counting loop visits. -/
theorem forIndices_fuel_irrelevant (cond : ℕ → Bool) (n : ℕ)
    (hc : ∀ i, cond i = decide (i < n)) (fuel : ℕ) (hf : n < fuel) :
    forIndices cond fuel 0 = forIndices cond (n + 1) 0 := by
  rw [forIndices_lt_eq_range' cond n hc fuel 0 (by omega),
    forIndices_lt_eq_range' cond n hc (n + 1) 0 (by omega)]

theorem foldl_loopBody (b s u r : ℚ) (l : List ℕ) :
    ∀ st : LoopState,
      (l.foldl (loopBody b s u r) st).labels = st.labels ++ l.map yearLabel ∧
      (l.foldl (loopBody b s u r) st).utilityAnnualCosts
        = st.utilityAnnualCosts ++ l.map (annualAt b u) ∧
      (l.foldl (loopBody b s u r) st).solarAnnualCosts
        = st.solarAnnualCosts ++ l.map (annualAt s r) ∧
      (l.foldl (loopBody b s u r) st).totalUtility
        = st.totalUtility + (l.map (annualAt b u)).sum ∧
      (l.foldl (loopBody b s u r) st).totalSolar
        = st.totalSolar + (l.map (annualAt s r)).sum := by
  induction l with
  | nil => intro st; simp
  | cons a l ih =>
    intro st
    obtain ⟨h1, h2, h3, h4, h5⟩ := ih (loopBody b s u r st a)
    simp only [List.foldl_cons, List.map_cons, List.sum_cons]
    rw [h1, h2, h3, h4, h5]
    simp [loopBody, yearLabel, annualAt, add_assoc]

/-- The loop of `calculateCosts` visits the year indices `0 .. years - 1`. -/
theorem costLoop_indices (years : ℤ) :
    forIndices (fun year => decide ((year : ℤ) < years)) (years.toNat + 1) 0
      = List.range years.toNat := by
  apply forIndices_lt_eq_range
  intro i
  simp only [decide_eq_decide]
  exact (Int.lt_toNat).symm

/-- The state after the loop of `calculateCosts`, in closed form. -/
theorem costLoop_eq (b s u r : ℚ) (years : ℤ) :
    (costLoop b s u r years).labels = (List.range years.toNat).map yearLabel ∧
    (costLoop b s u r years).utilityAnnualCosts
      = (List.range years.toNat).map (annualAt b u) ∧
    (costLoop b s u r years).solarAnnualCosts
      = (List.range years.toNat).map (annualAt s r) ∧
    (costLoop b s u r years).totalUtility
      = ((List.range years.toNat).map (annualAt b u)).sum ∧
    (costLoop b s u r years).totalSolar
      = ((List.range years.toNat).map (annualAt s r)).sum := by
  unfold costLoop
  rw [costLoop_indices]
  have h := foldl_loopBody b s u r (List.range years.toNat) LoopState.init
  simpa [LoopState.init] using h

/-! ## The projection -/

theorem calculateCosts_eq (inp : Inputs) :
    (calculateCosts inp).labels
      = (List.range (orZeroInt inp.yearsRange).toNat).map yearLabel ∧
    (calculateCosts inp).utilityAnnualCosts
      = (List.range (orZeroInt inp.yearsRange).toNat).map
          (annualAt (orZero inp.bill) UTILITY_RATE) ∧
    (calculateCosts inp).solarAnnualCosts
      = (List.range (orZeroInt inp.yearsRange).toNat).map
          (annualAt (orZero inp.solarPayment) (solarRate inp)) ∧
    (calculateCosts inp).totalUtility
      = ((List.range (orZeroInt inp.yearsRange).toNat).map
          (annualAt (orZero inp.bill) UTILITY_RATE)).sum ∧
    (calculateCosts inp).totalSolar
      = ((List.range (orZeroInt inp.yearsRange).toNat).map
          (annualAt (orZero inp.solarPayment) (solarRate inp))).sum :=
  costLoop_eq (orZero inp.bill) (orZero inp.solarPayment) UTILITY_RATE (solarRate inp)
    (orZeroInt inp.yearsRange)

theorem getElem?_map_range {α : Type} (f : ℕ → α) (n i : ℕ) (hi : i < n) :
    ((List.range n).map f)[i]? = some (f i) := by
  simp [List.getElem?_map, List.getElem?_range hi]

/-- C1. For every input whose years field coerces to `n ≥ 0`, `calculateCosts`
builds exactly `n` entries, and the entry of index `i < n` has the label
`Year i+1`, the utility cost `12 * b * (1 + 0.09)^i` and the solar cost
`12 * s * (1 + r)^i`, where `b`, `s`, `r` are the coerced bill, solar payment
and solar rate. -/
theorem calculateCosts_series (inp : Inputs) (n : ℕ)
    (hn : orZeroInt inp.yearsRange = (n : ℤ)) :
    (calculateCosts inp).labels.length = n ∧
    (calculateCosts inp).utilityAnnualCosts.length = n ∧
    (calculateCosts inp).solarAnnualCosts.length = n ∧
    ∀ i, i < n →
      (calculateCosts inp).labels[i]? = some ("Year " ++ toString (i + 1)) ∧
      (calculateCosts inp).utilityAnnualCosts[i]?
        = some (12 * orZero inp.bill * (1 + 9 / 100) ^ i) ∧
      (calculateCosts inp).solarAnnualCosts[i]?
        = some (12 * orZero inp.solarPayment * (1 + solarRate inp) ^ i) := by
  obtain ⟨h1, h2, h3, -, -⟩ := calculateCosts_eq inp
  have hN : (orZeroInt inp.yearsRange).toNat = n := by rw [hn]; exact Int.toNat_natCast n
  rw [hN] at h1 h2 h3
  rw [h1, h2, h3]
  refine ⟨by simp, by simp, by simp, ?_⟩
  intro i hi
  rw [getElem?_map_range _ n i hi, getElem?_map_range _ n i hi, getElem?_map_range _ n i hi]
  refine ⟨rfl, ?_, ?_⟩
  · simp only [annualAt, UTILITY_RATE]; congr 1; ring
  · simp only [annualAt]; congr 1; ring

/-- Witness of C1: bill 150, solar payment 120, 2 years, escalator 3 percent. -/
theorem calculateCosts_series_witness :
    orZeroInt (some 2) = ((2 : ℕ) : ℤ) ∧
    ((calculateCosts ⟨some 150, some 120, some 2, some 3, 600, 400⟩).labels.length = 2 ∧
    (calculateCosts ⟨some 150, some 120, some 2, some 3, 600, 400⟩).utilityAnnualCosts.length
      = 2 ∧
    (calculateCosts ⟨some 150, some 120, some 2, some 3, 600, 400⟩).solarAnnualCosts.length
      = 2 ∧
    ∀ i, i < 2 →
      (calculateCosts ⟨some 150, some 120, some 2, some 3, 600, 400⟩).labels[i]?
        = some ("Year " ++ toString (i + 1)) ∧
      (calculateCosts ⟨some 150, some 120, some 2, some 3, 600, 400⟩).utilityAnnualCosts[i]?
        = some (12 * orZero (some 150) * (1 + 9 / 100) ^ i) ∧
      (calculateCosts ⟨some 150, some 120, some 2, some 3, 600, 400⟩).solarAnnualCosts[i]?
        = some (12 * orZero (some 120)
            * (1 + solarRate ⟨some 150, some 120, some 2, some 3, 600, 400⟩) ^ i)) :=
  ⟨by decide,
    calculateCosts_series ⟨some 150, some 120, some 2, some 3, 600, 400⟩ 2 (by decide)⟩

/-- The example of the specification, evaluated: bill 150, solar payment 120,
2 years and a 3 percent escalator give the labels `Year 1`, `Year 2`, the
utility costs 1800 and 1962, the solar costs 1440 and 1483.20, and the totals
3762, 2923.20 and 838.80. -/
theorem calculateCosts_example :
    (calculateCosts ⟨some 150, some 120, some 2, some 3, 600, 400⟩).labels
      = ["Year 1", "Year 2"] ∧
    (calculateCosts ⟨some 150, some 120, some 2, some 3, 600, 400⟩).utilityAnnualCosts
      = [1800, 1962] ∧
    (calculateCosts ⟨some 150, some 120, some 2, some 3, 600, 400⟩).solarAnnualCosts
      = [1440, 148320 / 100] ∧
    (calculateCosts ⟨some 150, some 120, some 2, some 3, 600, 400⟩).totalUtility = 3762 ∧
    (calculateCosts ⟨some 150, some 120, some 2, some 3, 600, 400⟩).totalSolar
      = 292320 / 100 ∧
    (calculateCosts ⟨some 150, some 120, some 2, some 3, 600, 400⟩).difference
      = 83880 / 100 := by
  have hy : (orZeroInt (some 2)).toNat = 2 := by decide
  obtain ⟨h1, h2, h3, h4, h5⟩ :=
    calculateCosts_eq ⟨some 150, some 120, some 2, some 3, 600, 400⟩
  have hd : (calculateCosts ⟨some 150, some 120, some 2, some 3, 600, 400⟩).difference
      = (calculateCosts ⟨some 150, some 120, some 2, some 3, 600, 400⟩).totalUtility
        - (calculateCosts ⟨some 150, some 120, some 2, some 3, 600, 400⟩).totalSolar := rfl
  rw [hd, h1, h2, h3, h4, h5]
  simp only [hy]
  refine ⟨by decide, ?_, ?_, ?_, ?_, ?_⟩ <;>
    norm_num [List.range_succ, annualAt, UTILITY_RATE, solarRate, orZero]

/-- C2. For every input, the total utility cost that `calculateCosts` reports
is the sum of the utility entries of the series, the total solar cost is the
sum of the solar entries, and the reported savings is the difference of the
two totals. -/
theorem calculateCosts_totals (inp : Inputs) :
    (calculateCosts inp).totalUtility = (calculateCosts inp).utilityAnnualCosts.sum ∧
    (calculateCosts inp).totalSolar = (calculateCosts inp).solarAnnualCosts.sum ∧
    (calculateCosts inp).difference
      = (calculateCosts inp).totalUtility - (calculateCosts inp).totalSolar := by
  obtain ⟨-, h2, h3, h4, h5⟩ := calculateCosts_eq inp
  exact ⟨by rw [h4, h2], by rw [h5, h3], rfl⟩

theorem calculateCosts_yearlyDetails (inp : Inputs) :
    (calculateCosts inp).yearlyDetails.isSnapshot
      = decide (0 < orZeroInt inp.yearsRange) := by
  by_cases h : 0 < orZeroInt inp.yearsRange
  · simp [calculateCosts, h, YearlyDetails.isSnapshot]
  · simp [calculateCosts, h, YearlyDetails.isSnapshot]

/-- C3. When the years field coerces to 0, `calculateCosts` yields no label,
no utility cost and no solar cost, both totals are 0 and the final-year
snapshot is not written (the page shows the prompt to select a timeline);
whenever the years are positive the snapshot is written. -/
theorem calculateCosts_zero_years (inp : Inputs) :
    (orZeroInt inp.yearsRange = 0 →
      (calculateCosts inp).labels = [] ∧
      (calculateCosts inp).utilityAnnualCosts = [] ∧
      (calculateCosts inp).solarAnnualCosts = [] ∧
      (calculateCosts inp).totalUtility = 0 ∧
      (calculateCosts inp).totalSolar = 0 ∧
      (calculateCosts inp).yearlyDetails = YearlyDetails.selectTimeline) ∧
    (0 < orZeroInt inp.yearsRange →
      (calculateCosts inp).yearlyDetails.isSnapshot = true) := by
  constructor
  · intro h0
    obtain ⟨h1, h2, h3, h4, h5⟩ := calculateCosts_eq inp
    rw [h0] at h1 h2 h3 h4 h5
    refine ⟨by simpa using h1, by simpa using h2, by simpa using h3, by simpa using h4,
      by simpa using h5, ?_⟩
    simp [calculateCosts, h0]
  · intro hpos
    rw [calculateCosts_yearlyDetails, decide_eq_true hpos]

/-- Witness of C3: an empty years field for the first part, 2 years for the
second. -/
theorem calculateCosts_zero_years_witness :
    ((calculateCosts ⟨some 150, some 120, none, some 3, 600, 400⟩).labels = [] ∧
      (calculateCosts ⟨some 150, some 120, none, some 3, 600, 400⟩).utilityAnnualCosts = [] ∧
      (calculateCosts ⟨some 150, some 120, none, some 3, 600, 400⟩).solarAnnualCosts = [] ∧
      (calculateCosts ⟨some 150, some 120, none, some 3, 600, 400⟩).totalUtility = 0 ∧
      (calculateCosts ⟨some 150, some 120, none, some 3, 600, 400⟩).totalSolar = 0 ∧
      (calculateCosts ⟨some 150, some 120, none, some 3, 600, 400⟩).yearlyDetails
        = YearlyDetails.selectTimeline) ∧
    (calculateCosts ⟨some 150, some 120, some 2, some 3, 600, 400⟩).yearlyDetails.isSnapshot
      = true :=
  ⟨(calculateCosts_zero_years ⟨some 150, some 120, none, some 3, 600, 400⟩).1 (by decide),
    (calculateCosts_zero_years ⟨some 150, some 120, some 2, some 3, 600, 400⟩).2 (by decide)⟩

/-- C4 as stated fails: with an empty bill field (coerced to 0) and 2 years,
the utility costs of the indices 0 and 1 are both 0, so the first is not
strictly less than the second. -/
theorem utility_increasing_counterexample :
    (0 : ℕ) < 1 ∧ ((1 : ℕ) : ℤ) < orZeroInt (some 2) ∧
    (calculateCosts ⟨none, some 120, some 2, some 3, 600, 400⟩).utilityAnnualCosts[0]?
      = some 0 ∧
    (calculateCosts ⟨none, some 120, some 2, some 3, 600, 400⟩).utilityAnnualCosts[1]?
      = some 0 ∧
    ¬ ∃ a b : ℚ,
      (calculateCosts ⟨none, some 120, some 2, some 3, 600, 400⟩).utilityAnnualCosts[0]?
        = some a ∧
      (calculateCosts ⟨none, some 120, some 2, some 3, 600, 400⟩).utilityAnnualCosts[1]?
        = some b ∧ a < b := by
  have hy : (orZeroInt (some 2)).toNat = 2 := by decide
  have hu := (calculateCosts_eq ⟨none, some 120, some 2, some 3, 600, 400⟩).2.1
  simp only [hy] at hu
  have h0 : (calculateCosts ⟨none, some 120, some 2, some 3, 600, 400⟩).utilityAnnualCosts
      = [0, 0] := by
    rw [hu]; norm_num [List.range_succ, annualAt, orZero]
  rw [h0]
  refine ⟨by decide, by decide, rfl, rfl, ?_⟩
  rintro ⟨a, b, ha, hb, hab⟩
  simp only [List.getElem?_cons_zero, List.getElem?_cons_succ, Option.some.injEq] at ha hb
  rw [← ha, ← hb] at hab
  exact lt_irrefl _ hab

/-- C4, amended. Numbers taken as exact rationals, and inside the range of
doubles: when the coerced monthly bill is at least the smallest normal double
(so it is positive), and the growth factor `1.09^j` and the annual cost
`12 * bill * 1.09^j` of the index `j` are at most `2^1023` (so nothing up to
`j` overflows), the annual utility cost is strictly increasing: for all
`i < j < years` the entry of index `i` is strictly less than the entry of
index `j`. -/
theorem utility_strictly_increasing (inp : Inputs)
    (hlo : doubleMinNormal ≤ orZero inp.bill)
    (i j : ℕ) (hij : i < j) (hj : (j : ℤ) < orZeroInt inp.yearsRange)
    (hpow : (1 + UTILITY_RATE) ^ j ≤ doubleSafeMax)
    (hhi : 12 * orZero inp.bill * (1 + 9 / 100) ^ j ≤ doubleSafeMax) :
    ∃ a b : ℚ,
      (calculateCosts inp).utilityAnnualCosts[i]? = some a ∧
      (calculateCosts inp).utilityAnnualCosts[j]? = some b ∧
      a < b ∧ b ≤ doubleSafeMax ∧ (1 + UTILITY_RATE) ^ i < doubleSafeMax := by
  have hb : 0 < orZero inp.bill :=
    lt_of_lt_of_le (by norm_num [doubleMinNormal]) hlo
  have hu := (calculateCosts_eq inp).2.1
  have hjn : j < (orZeroInt inp.yearsRange).toNat := Int.lt_toNat.mpr hj
  have hr : (1 : ℚ) < 1 + UTILITY_RATE := by norm_num [UTILITY_RATE]
  have hp : (1 + UTILITY_RATE) ^ i < (1 + UTILITY_RATE) ^ j := pow_lt_pow_right₀ hr hij
  refine ⟨annualAt (orZero inp.bill) UTILITY_RATE i, annualAt (orZero inp.bill) UTILITY_RATE j,
    ?_, ?_, ?_, ?_, ?_⟩
  · rw [hu]; exact getElem?_map_range _ _ i (by omega)
  · rw [hu]; exact getElem?_map_range _ _ j hjn
  · unfold annualAt
    have := mul_lt_mul_of_pos_left hp hb
    linarith
  · have he : annualAt (orZero inp.bill) UTILITY_RATE j
        = 12 * orZero inp.bill * (1 + 9 / 100) ^ j := by
      simp only [annualAt, UTILITY_RATE]; ring
    rw [he]; exact hhi
  · exact lt_of_lt_of_le hp hpow

/-- Witness of C4, amended: bill 150, 2 years, indices 0 and 1. -/
theorem utility_strictly_increasing_witness :
    doubleMinNormal ≤ orZero (some 150) ∧ (0 : ℕ) < 1 ∧
    ((1 : ℕ) : ℤ) < orZeroInt (some 2) ∧
    (1 + UTILITY_RATE) ^ 1 ≤ doubleSafeMax ∧
    12 * orZero (some 150) * (1 + 9 / 100) ^ 1 ≤ doubleSafeMax ∧
    ∃ a b : ℚ,
      (calculateCosts ⟨some 150, some 120, some 2, some 3, 600, 400⟩).utilityAnnualCosts[0]?
        = some a ∧
      (calculateCosts ⟨some 150, some 120, some 2, some 3, 600, 400⟩).utilityAnnualCosts[1]?
        = some b ∧ a < b ∧ b ≤ doubleSafeMax ∧ (1 + UTILITY_RATE) ^ 0 < doubleSafeMax :=
  ⟨by norm_num [orZero, doubleMinNormal], by decide, by decide,
    by norm_num [UTILITY_RATE, doubleSafeMax],
    by norm_num [orZero, doubleSafeMax],
    utility_strictly_increasing ⟨some 150, some 120, some 2, some 3, 600, 400⟩
      (by norm_num [orZero, doubleMinNormal]) 0 1 (by decide) (by decide)
      (by norm_num [UTILITY_RATE, doubleSafeMax])
      (by norm_num [orZero, doubleSafeMax])⟩

/-- C5 as stated fails: a bill of -5 is not replaced by 0.  With 1 year the
utility series is `[-60]`, which has a non-zero entry. -/
theorem negative_bill_counterexample :
    orZero (some (-5)) = -5 ∧
    (calculateCosts ⟨some (-5), some 120, some 1, some 3, 600, 400⟩).utilityAnnualCosts
      = [-60] ∧
    ¬ ∀ c ∈ (calculateCosts ⟨some (-5), some 120, some 1, some 3, 600, 400⟩).utilityAnnualCosts,
        c = 0 := by
  have hy : (orZeroInt (some 1)).toNat = 1 := by decide
  have hu := (calculateCosts_eq ⟨some (-5), some 120, some 1, some 3, 600, 400⟩).2.1
  simp only [hy] at hu
  have h0 : (calculateCosts ⟨some (-5), some 120, some 1, some 3, 600, 400⟩).utilityAnnualCosts
      = [-60] := by
    rw [hu]; norm_num [List.range_succ, annualAt, orZero]
  rw [h0]
  refine ⟨by norm_num [orZero], rfl, ?_⟩
  intro h
  have := h (-60) (List.mem_singleton.mpr rfl)
  norm_num at this

/-- C5, amended. Numbers taken as exact rationals, and inside the range of
doubles: when the bill did not parse as a number and the growth factor
`1.09^i` of every year index is at most `2^1023`, every annual utility cost
of the series is 0; likewise for the solar payment, the growth factor
`(1 + r)^i` and the solar costs.  A negative bill or payment `q` is not
replaced by 0: with at least one year the first annual cost is `12 * q`. -/
theorem calculateCosts_unparsed_inputs (inp : Inputs) :
    (inp.bill = none →
      (∀ i : ℕ, (i : ℤ) < orZeroInt inp.yearsRange →
        |1 + UTILITY_RATE| ^ i ≤ doubleSafeMax) →
      (calculateCosts inp).utilityAnnualCosts
        = List.replicate (orZeroInt inp.yearsRange).toNat 0) ∧
    (inp.solarPayment = none →
      (∀ i : ℕ, (i : ℤ) < orZeroInt inp.yearsRange →
        |1 + solarRate inp| ^ i ≤ doubleSafeMax) →
      (calculateCosts inp).solarAnnualCosts
        = List.replicate (orZeroInt inp.yearsRange).toNat 0) ∧
    (∀ q : ℚ, q < 0 → -doubleSafeMax ≤ 12 * q → inp.bill = some q →
      0 < orZeroInt inp.yearsRange →
      (calculateCosts inp).utilityAnnualCosts[0]? = some (12 * q)) ∧
    (∀ q : ℚ, q < 0 → -doubleSafeMax ≤ 12 * q → inp.solarPayment = some q →
      0 < orZeroInt inp.yearsRange →
      (calculateCosts inp).solarAnnualCosts[0]? = some (12 * q)) := by
  obtain ⟨-, h2, h3, -, -⟩ := calculateCosts_eq inp
  have hzero : ∀ (r : ℚ) (n : ℕ),
      (List.range n).map (annualAt 0 r) = List.replicate n 0 := by
    intro r n
    apply List.ext_getElem
    · simp
    · intro k hk1 hk2
      simp [annualAt]
  refine ⟨?_, ?_, ?_, ?_⟩
  · intro hb _
    rw [h2, hb]
    exact hzero _ _
  · intro hs _
    rw [h3, hs]
    exact hzero _ _
  · intro q hq _ hb hy
    have hpos : 0 < (orZeroInt inp.yearsRange).toNat := Int.lt_toNat.mpr (by exact_mod_cast hy)
    rw [h2, hb, getElem?_map_range _ _ 0 hpos]
    simp [annualAt, orZero, ne_of_lt hq, mul_comm]
  · intro q hq _ hs hy
    have hpos : 0 < (orZeroInt inp.yearsRange).toNat := Int.lt_toNat.mpr (by exact_mod_cast hy)
    rw [h3, hs, getElem?_map_range _ _ 0 hpos]
    simp [annualAt, orZero, ne_of_lt hq, mul_comm]

/-- Witness of C5, amended: an unparsed bill and an unparsed solar payment over
2 years give the series `[0, 0]`; a bill and a payment of -5 over 1 year give
the first cost `12 * (-5)`. -/
theorem calculateCosts_unparsed_inputs_witness :
    (∀ i : ℕ, (i : ℤ) < orZeroInt (some 2) → |1 + UTILITY_RATE| ^ i ≤ doubleSafeMax) ∧
    (∀ i : ℕ, (i : ℤ) < orZeroInt (some 2) →
      |1 + solarRate ⟨none, none, some 2, some 3, 600, 400⟩| ^ i ≤ doubleSafeMax) ∧
    (calculateCosts ⟨none, none, some 2, some 3, 600, 400⟩).utilityAnnualCosts
      = List.replicate (orZeroInt (some 2)).toNat 0 ∧
    (calculateCosts ⟨none, none, some 2, some 3, 600, 400⟩).solarAnnualCosts
      = List.replicate (orZeroInt (some 2)).toNat 0 ∧
    (calculateCosts ⟨some (-5), some (-5), some 1, some 3, 600, 400⟩).utilityAnnualCosts[0]?
      = some ((12 : ℚ) * (-5)) ∧
    (calculateCosts ⟨some (-5), some (-5), some 1, some 3, 600, 400⟩).solarAnnualCosts[0]?
      = some ((12 : ℚ) * (-5)) := by
  have hy : orZeroInt (some 2) = 2 := by decide
  have hu : ∀ i : ℕ, (i : ℤ) < orZeroInt (some 2) →
      |1 + UTILITY_RATE| ^ i ≤ doubleSafeMax := by
    intro i hi
    rw [hy] at hi
    have hi2 : i < 2 := by exact_mod_cast hi
    interval_cases i <;> norm_num [UTILITY_RATE, doubleSafeMax, abs_of_pos]
  have hs : ∀ i : ℕ, (i : ℤ) < orZeroInt (some 2) →
      |1 + solarRate ⟨none, none, some 2, some 3, 600, 400⟩| ^ i ≤ doubleSafeMax := by
    intro i hi
    rw [hy] at hi
    have hi2 : i < 2 := by exact_mod_cast hi
    interval_cases i <;> norm_num [solarRate, orZero, doubleSafeMax, abs_of_pos]
  exact ⟨hu, hs,
    (calculateCosts_unparsed_inputs ⟨none, none, some 2, some 3, 600, 400⟩).1 rfl hu,
    (calculateCosts_unparsed_inputs ⟨none, none, some 2, some 3, 600, 400⟩).2.1 rfl hs,
    (calculateCosts_unparsed_inputs ⟨some (-5), some (-5), some 1, some 3, 600, 400⟩).2.2.1
      (-5) (by norm_num) (by norm_num [doubleSafeMax]) rfl (by decide),
    (calculateCosts_unparsed_inputs ⟨some (-5), some (-5), some 1, some 3, 600, 400⟩).2.2.2
      (-5) (by norm_num) (by norm_num [doubleSafeMax]) rfl (by decide)⟩

/-! ## The chart -/

/-- The ceiling of `n / 10` in integer arithmetic. -/
theorem ceil_div_ten (n : ℕ) : ⌈(n : ℚ) / ((10 : ℕ) : ℚ)⌉₊ = (n + 9) / 10 := by
  rcases Nat.eq_zero_or_pos n with h0 | hpos
  · subst h0; simp
  · have hk : (n + 9) / 10 ≠ 0 := by omega
    rw [Nat.ceil_eq_iff hk]
    have h10 : (0 : ℚ) < ((10 : ℕ) : ℚ) := by norm_num
    constructor
    · rw [lt_div_iff₀ h10]
      have : ((n + 9) / 10 - 1) * 10 < n := by omega
      exact_mod_cast this
    · rw [div_le_iff₀ h10]
      have : n ≤ (n + 9) / 10 * 10 := by omega
      exact_mod_cast this

theorem labelStep_eq (n : ℕ) : labelStep n = max 1 ((n + 9) / 10) := by
  show max 1 ⌈(n : ℚ) / ((10 : ℕ) : ℚ)⌉₊ = max 1 ((n + 9) / 10)
  rw [ceil_div_ten]

/-- The indices of the labels drawn, as a filter of `0 .. n - 1`. -/
theorem drawnLabelIndices_eq (labels : List String) :
    drawnLabelIndices labels
      = (List.range labels.length).filter
          (fun i => decide (i % max 1 ((labels.length + 9) / 10) = 0)
            || decide (i + 1 = labels.length)) := by
  unfold drawnLabelIndices
  rw [forIndices_lt_eq_range _ labels.length (fun _ => rfl)]
  simp only [labelStep_eq]
  apply List.filter_congr
  intro i _
  congr 1
  simp only [decide_eq_decide]
  omega

theorem drawChart_xLabels_indices (w h : ℚ) (labels : List String) (u s : List ℚ) :
    (drawChart w h labels u s).xLabels.map Prod.fst = drawnLabelIndices labels := by
  simp [drawChart, List.map_map, Function.comp_def]

theorem drawChart_tick_indices :
    forIndices (fun i => decide (i ≤ 5)) (5 + 2) 0 = [0, 1, 2, 3, 4, 5] := by
  decide

theorem calculateCosts_chart (inp : Inputs) :
    (calculateCosts inp).chart
      = drawChart inp.canvasWidth inp.canvasHeight (calculateCosts inp).labels
          (calculateCosts inp).utilityAnnualCosts (calculateCosts inp).solarAnnualCosts :=
  rfl

theorem foldl_max_ge (xs : List ℚ) :
    ∀ x, x ≤ xs.foldl max x ∧ ∀ y ∈ xs, y ≤ xs.foldl max x := by
  induction xs with
  | nil => intro x; simp
  | cons a xs ih =>
    intro x
    obtain ⟨h1, h2⟩ := ih (max x a)
    refine ⟨le_trans (le_max_left x a) h1, ?_⟩
    intro y hy
    rcases List.mem_cons.mp hy with rfl | hy
    · exact le_trans (le_max_right x y) h1
    · exact h2 y hy

theorem foldl_max_mem (xs : List ℚ) :
    ∀ x, xs.foldl max x ∈ x :: xs := by
  induction xs with
  | nil => intro x; simp
  | cons a xs ih =>
    intro x
    have h := ih (max x a)
    rcases List.mem_cons.mp h with h | h
    · rcases max_choice x a with hm | hm
      · rw [List.foldl_cons, h, hm]; exact List.mem_cons_self _ _
      · rw [List.foldl_cons, h, hm]; exact List.mem_cons_of_mem _ (List.mem_cons_self _ _)
    · exact List.mem_cons_of_mem _ (List.mem_cons_of_mem _ h)

/-- On a list with a greatest element `m`, `Math.max` returns `m`. -/
theorem mathMax_eq_of_greatest (l : List ℚ) (m : ℚ) (hm : m ∈ l)
    (hle : ∀ x ∈ l, x ≤ m) : mathMax l = JSNum.fin m := by
  cases l with
  | nil => exact absurd hm (List.not_mem_nil m)
  | cons x xs =>
    have hge := foldl_max_ge xs x
    have hmem := foldl_max_mem xs x
    have h1 : xs.foldl max x ≤ m := hle _ hmem
    have h2 : m ≤ xs.foldl max x := by
      rcases List.mem_cons.mp hm with rfl | h
      · exact hge.1
      · exact hge.2 m h
    show JSNum.fin (xs.foldl max x) = JSNum.fin m
    rw [le_antisymm h1 h2]

theorem drawChart_maxVal_eq (w h : ℚ) (labels : List String) (u s : List ℚ) :
    (drawChart w h labels u s).maxVal
      = ((mathMax (u ++ s)).mul (JSNum.fin (11 / 10))).orElse (JSNum.fin 1) :=
  rfl

/-- C6, evaluated. With the 20 labels `Year 1` to `Year 20`, `drawChart` draws
11 x-axis labels, those of the indices 0, 2, ..., 18 and 19: one more than
the 10 its comment allows. -/
theorem drawChart_twenty_labels (w h : ℚ) (u s : List ℚ) :
    (drawChart w h ((List.range 20).map yearLabel) u s).xLabels.map Prod.fst
      = [0, 2, 4, 6, 8, 10, 12, 14, 16, 18, 19] ∧
    (drawChart w h ((List.range 20).map yearLabel) u s).xLabels.length = 11 := by
  have hi : (drawChart w h ((List.range 20).map yearLabel) u s).xLabels.map Prod.fst
      = [0, 2, 4, 6, 8, 10, 12, 14, 16, 18, 19] := by
    rw [drawChart_xLabels_indices, drawnLabelIndices_eq]
    simp only [List.length_map, List.length_range]
    decide
  refine ⟨hi, ?_⟩
  have := congrArg List.length hi
  simpa using this

/-- C7, evaluated. For every input `drawChart` draws 6 y-axis ticks, not 5:
the loop runs for `i = 0, 1, ..., 5`, and the tick of index `i` is labelled
`(maxVal / 5) * i`.  On one point with the values 100 and 50 the labelled
values are 0, 22, 44, 66, 88 and 110. -/
theorem drawChart_six_ticks (w h : ℚ) (labels : List String) (u s : List ℚ) :
    (drawChart w h labels u s).yTicks.length = 6 ∧
    (drawChart w h labels u s).yTicks.map Prod.fst
      = (List.range 6).map (fun i =>
          (((drawChart w h labels u s).maxVal).div (JSNum.fin 5)).mul (JSNum.fin i)) ∧
    (drawChart 600 400 ["Year 1"] [100] [50]).yTicks.map Prod.fst
      = [JSNum.fin 0, JSNum.fin 22, JSNum.fin 44, JSNum.fin 66, JSNum.fin 88,
          JSNum.fin 110] := by
  have hidx := drawChart_tick_indices
  refine ⟨?_, ?_, ?_⟩
  · simp only [drawChart, hidx]
    rfl
  · simp only [drawChart, hidx]
    simp [List.range_succ]
  · simp only [drawChart, hidx, mathMax]
    norm_num [JSNum.mul, JSNum.div, JSNum.orElse, JSNum.truthy]

/-- C8, evaluated. When both series are empty, `Math.max` of no argument is
`-Infinity`, which is truthy, so the fallback to 1 is not taken: `maxVal` is
`-Infinity`, the tick values are `NaN` and five times `-Infinity`, and every
tick position is `NaN`.  This is the chart `calculateCosts` draws for 0
years. -/
theorem drawChart_empty_series (w h : ℚ) :
    (drawChart w h [] [] []).maxVal = JSNum.negInf ∧
    (drawChart w h [] [] []).maxVal ≠ JSNum.fin 1 ∧
    (drawChart w h [] [] []).yTicks.map Prod.fst
      = [JSNum.nan, JSNum.negInf, JSNum.negInf, JSNum.negInf, JSNum.negInf,
          JSNum.negInf] ∧
    (drawChart w h [] [] []).yTicks.map Prod.snd
      = [JSNum.nan, JSNum.nan, JSNum.nan, JSNum.nan, JSNum.nan, JSNum.nan] ∧
    (calculateCosts ⟨some 150, some 120, some 0, some 3, 600, 400⟩).chart.maxVal
      = JSNum.negInf := by
  have hidx := drawChart_tick_indices
  have hm : (drawChart w h [] [] []).maxVal = JSNum.negInf := by
    rw [drawChart_maxVal_eq]
    norm_num [mathMax, JSNum.mul, JSNum.infTimes, JSNum.orElse, JSNum.truthy]
  have hc : (calculateCosts ⟨some 150, some 120, some 0, some 3, 600, 400⟩).chart.maxVal
      = JSNum.negInf := by
    have h0 : (orZeroInt (some 0)).toNat = 0 := by decide
    obtain ⟨-, h2, h3, -, -⟩ :=
      calculateCosts_eq ⟨some 150, some 120, some 0, some 3, 600, 400⟩
    simp only [h0, List.range_zero, List.map_nil] at h2 h3
    rw [calculateCosts_chart, drawChart_maxVal_eq, h2, h3]
    norm_num [mathMax, JSNum.mul, JSNum.infTimes, JSNum.orElse, JSNum.truthy]
  refine ⟨hm, ?_, ?_, ?_, hc⟩
  · rw [hm]; decide
  · simp only [drawChart, hidx, mathMax]
    norm_num [JSNum.mul, JSNum.div, JSNum.infTimes, JSNum.orElse, JSNum.truthy]
  · simp only [drawChart, hidx, mathMax]
    norm_num [JSNum.mul, JSNum.div, JSNum.sub, JSNum.infTimes, JSNum.orElse, JSNum.truthy]

/-- C9. For every pair of series with at least one data point in which every
value is zero, `maxVal` is exactly 1; and for every pair of series whose
largest value `m` is non-zero, `maxVal` is `m * 1.1`. -/
theorem drawChart_maxVal (w h : ℚ) (labels : List String) (u s : List ℚ) :
    (u ++ s ≠ [] → (∀ x ∈ u ++ s, x = 0) →
      (drawChart w h labels u s).maxVal = JSNum.fin 1) ∧
    (∀ m : ℚ, m ∈ u ++ s → (∀ x ∈ u ++ s, x ≤ m) → m ≠ 0 →
      (drawChart w h labels u s).maxVal = JSNum.fin (m * (11 / 10))) := by
  constructor
  · intro hne hz
    obtain ⟨a, ha⟩ := List.exists_mem_of_ne_nil _ hne
    have ha0 : a = 0 := hz a ha
    have hmax : mathMax (u ++ s) = JSNum.fin 0 :=
      mathMax_eq_of_greatest _ 0 (ha0 ▸ ha) (fun x hx => le_of_eq (hz x hx))
    rw [drawChart_maxVal_eq, hmax]
    simp [JSNum.mul, JSNum.orElse, JSNum.truthy]
  · intro m hm hle hm0
    rw [drawChart_maxVal_eq, mathMax_eq_of_greatest _ m hm hle]
    simp [JSNum.mul, JSNum.orElse, JSNum.truthy, hm0]

/-- Witness of C9: three years of zero costs give the scale 1; the costs
`[100, 109]` and `[50, 51]` give the scale `109 * 1.1`. -/
theorem drawChart_maxVal_witness :
    (drawChart 600 400 ["Year 1", "Year 2"] [0, 0] [0]).maxVal = JSNum.fin 1 ∧
    (drawChart 600 400 ["Year 1", "Year 2"] [100, 109] [50, 51]).maxVal
      = JSNum.fin (109 * (11 / 10)) :=
  ⟨(drawChart_maxVal 600 400 ["Year 1", "Year 2"] [0, 0] [0]).1 (by simp) (by simp),
    (drawChart_maxVal 600 400 ["Year 1", "Year 2"] [100, 109] [50, 51]).2 109
      (by simp) (by intro x hx; simp at hx; rcases hx with rfl | rfl | rfl | rfl <;> norm_num)
      (by norm_num)⟩

/-- The indices drawn for a non-empty label sequence, with the stride written
as the ceiling of `n / 10`. -/
theorem drawnLabelIndices_ceil (labels : List String) (hne : labels ≠ []) :
    drawnLabelIndices labels
      = (List.range labels.length).filter (fun i =>
          decide (i % ⌈(labels.length : ℚ) / 10⌉₊ = 0)
            || decide (i = labels.length - 1)) := by
  have hpos : 0 < labels.length := List.length_pos.mpr hne
  have h10 : (labels.length : ℚ) / 10 = (labels.length : ℚ) / ((10 : ℕ) : ℚ) := by norm_num
  have hk : max 1 ((labels.length + 9) / 10) = (labels.length + 9) / 10 :=
    max_eq_right (by omega)
  rw [drawnLabelIndices_eq, h10, ceil_div_ten, hk]
  apply List.filter_congr
  intro i _
  congr 1
  simp only [decide_eq_decide]
  omega

theorem drawChart_xLabels_eq (w h : ℚ) (labels : List String) (u s : List ℚ) :
    (drawChart w h labels u s).xLabels
      = (drawnLabelIndices labels).map
          (fun i => (i, labels.getD i "", 50 + (drawChart w h labels u s).xScale * i)) :=
  rfl

/-- C10. For every non-empty label sequence of length `n`, the label stride of
`drawChart` is the ceiling of `n / 10`: the labels drawn are, in order, those
of the indices `i < n` with `i` a multiple of the ceiling of `n / 10` or
`i = n - 1`, each with its own text at the position `50 + xScale * i`, and no
other.  So the label of the last index `n - 1` is drawn whether or not it is
on the stride, and the label of the index 0 is drawn. -/
theorem drawChart_label_stride (w h : ℚ) (labels : List String) (u s : List ℚ)
    (hne : labels ≠ []) :
    (labelStep labels.length : ℤ) = ⌈(labels.length : ℚ) / 10⌉ ∧
    (drawChart w h labels u s).xLabels
      = ((List.range labels.length).filter (fun i =>
            decide (i % ⌈(labels.length : ℚ) / 10⌉₊ = 0)
              || decide (i = labels.length - 1))).map
          (fun i => (i, labels.getD i "", 50 + (drawChart w h labels u s).xScale * i)) ∧
    (∀ i : ℕ, i ∈ (drawChart w h labels u s).xLabels.map Prod.fst ↔
      i < labels.length ∧
        (i % ⌈(labels.length : ℚ) / 10⌉₊ = 0 ∨ i = labels.length - 1)) ∧
    (labels.length - 1) ∈ (drawChart w h labels u s).xLabels.map Prod.fst ∧
    0 ∈ (drawChart w h labels u s).xLabels.map Prod.fst := by
  have hpos : 0 < labels.length := List.length_pos.mpr hne
  have hmem : ∀ i : ℕ, i ∈ (drawChart w h labels u s).xLabels.map Prod.fst ↔
      i < labels.length ∧
        (i % ⌈(labels.length : ℚ) / 10⌉₊ = 0 ∨ i = labels.length - 1) := by
    intro i
    rw [drawChart_xLabels_indices, drawnLabelIndices_ceil labels hne, List.mem_filter,
      List.mem_range]
    simp
  refine ⟨?_, ?_, hmem, ?_, ?_⟩
  · have hq : (0 : ℚ) ≤ (labels.length : ℚ) / 10 := by positivity
    have hc : ⌈(labels.length : ℚ) / 10⌉ = ((⌈(labels.length : ℚ) / 10⌉₊ : ℕ) : ℤ) :=
      (Int.natCast_ceil_eq_ceil hq).symm
    have h10 : (labels.length : ℚ) / 10 = (labels.length : ℚ) / ((10 : ℕ) : ℚ) := by norm_num
    rw [hc, h10, ceil_div_ten, labelStep_eq]
    have : 1 ≤ (labels.length + 9) / 10 := by omega
    rw [max_eq_right this]
  · rw [drawChart_xLabels_eq, drawnLabelIndices_ceil labels hne]
  · exact (hmem _).mpr ⟨by omega, Or.inr rfl⟩
  · exact (hmem 0).mpr ⟨hpos, Or.inl (Nat.zero_mod _)⟩

/-- Witness of C10: 37 labels give the stride `ceil(37 / 10)` and the labels of
the indices 36 and 0 are drawn; with 12 labels the last index 11 is drawn,
and the index 9 is drawn exactly if it is on the stride or last. -/
theorem drawChart_label_stride_witness :
    (List.range 37).map yearLabel ≠ [] ∧ (List.range 12).map yearLabel ≠ [] ∧
    (labelStep ((List.range 37).map yearLabel).length : ℤ)
      = ⌈(((List.range 37).map yearLabel).length : ℚ) / 10⌉ ∧
    (((List.range 37).map yearLabel).length - 1)
      ∈ (drawChart 600 400 ((List.range 37).map yearLabel) [] []).xLabels.map Prod.fst ∧
    0 ∈ (drawChart 600 400 ((List.range 37).map yearLabel) [] []).xLabels.map Prod.fst ∧
    (((List.range 12).map yearLabel).length - 1)
      ∈ (drawChart 600 400 ((List.range 12).map yearLabel) [] []).xLabels.map Prod.fst ∧
    (9 ∈ (drawChart 600 400 ((List.range 12).map yearLabel) [] []).xLabels.map Prod.fst ↔
      9 < ((List.range 12).map yearLabel).length ∧
        (9 % ⌈(((List.range 12).map yearLabel).length : ℚ) / 10⌉₊ = 0
          ∨ 9 = ((List.range 12).map yearLabel).length - 1)) :=
  ⟨by decide, by decide,
    (drawChart_label_stride 600 400 ((List.range 37).map yearLabel) [] [] (by decide)).1,
    (drawChart_label_stride 600 400 ((List.range 37).map yearLabel) [] [] (by decide)).2.2.2.1,
    (drawChart_label_stride 600 400 ((List.range 37).map yearLabel) [] [] (by decide)).2.2.2.2,
    (drawChart_label_stride 600 400 ((List.range 12).map yearLabel) [] [] (by decide)).2.2.2.1,
    (drawChart_label_stride 600 400 ((List.range 12).map yearLabel) [] [] (by decide)).2.2.1 9⟩

/-- With 12 labels the stride is 2 and the labels drawn are those of the
indices 0, 2, ..., 10 and of the last index 11, which is off the stride; the
indices 1, 3, 5, 7, 9 are not drawn. -/
theorem drawChart_twelve_labels (w h : ℚ) (u s : List ℚ) :
    labelStep 12 = 2 ∧
    (drawChart w h ((List.range 12).map yearLabel) u s).xLabels.map Prod.fst
      = [0, 2, 4, 6, 8, 10, 11] := by
  constructor
  · rw [labelStep_eq]; decide
  · rw [drawChart_xLabels_indices, drawnLabelIndices_eq]
    simp only [List.length_map, List.length_range]
    decide

/-- The stride for 37 labels is 4, and the labels drawn are those of the
indices 0, 4, ..., 36. -/
theorem drawChart_thirty_seven_labels :
    labelStep 37 = 4 ∧
    drawnLabelIndices ((List.range 37).map yearLabel) = [0, 4, 8, 12, 16, 20, 24, 28, 32, 36] := by
  constructor
  · rw [labelStep_eq]; decide
  · rw [drawnLabelIndices_eq]
    simp only [List.length_map, List.length_range]
    decide

/-- For every label sequence `drawChart` draws at most 11 x-axis labels: at
most 10 on the stride, and the last one. -/
theorem drawChart_xLabels_le_eleven (w h : ℚ) (labels : List String) (u s : List ℚ) :
    (drawChart w h labels u s).xLabels.length ≤ 11 := by
  have hlen : (drawChart w h labels u s).xLabels.length
      = (drawnLabelIndices labels).length := by
    rw [← drawChart_xLabels_indices w h labels u s, List.length_map]
  rw [hlen, drawnLabelIndices_eq]
  generalize labels.length = n
  have hst1 : 1 ≤ max 1 ((n + 9) / 10) := le_max_left _ _
  have hst2 : (n + 9) / 10 ≤ max 1 ((n + 9) / 10) := le_max_right _ _
  generalize max 1 ((n + 9) / 10) = st at hst1 hst2
  have hn : n ≤ st * 10 := by omega
  have hnodup : ((List.range n).filter
      (fun i => decide (i % st = 0) || decide (i + 1 = n))).Nodup :=
    (List.nodup_range n).filter _
  have hmem : ∀ i ∈ (List.range n).filter
      (fun i => decide (i % st = 0) || decide (i + 1 = n)),
      i < n ∧ (i % st = 0 ∨ i + 1 = n) := by
    intro i hi
    simpa [List.mem_filter, List.mem_range] using hi
  have hinj : ∀ i ∈ (List.range n).filter
      (fun i => decide (i % st = 0) || decide (i + 1 = n)),
      ∀ j ∈ (List.range n).filter
        (fun i => decide (i % st = 0) || decide (i + 1 = n)),
      (if i % st = 0 then i / st else 10) = (if j % st = 0 then j / st else 10) → i = j := by
    intro i hi j hj hf
    obtain ⟨hin, hi2⟩ := hmem i hi
    obtain ⟨hjn, hj2⟩ := hmem j hj
    have hi10 : i / st < 10 := (Nat.div_lt_iff_lt_mul (by omega)).mpr (by omega)
    have hj10 : j / st < 10 := (Nat.div_lt_iff_lt_mul (by omega)).mpr (by omega)
    by_cases hi0 : i % st = 0
    · by_cases hj0 : j % st = 0
      · rw [if_pos hi0, if_pos hj0] at hf
        have e1 := Nat.div_add_mod i st
        have e2 := Nat.div_add_mod j st
        rw [hi0] at e1
        rw [hj0, ← hf] at e2
        omega
      · rw [if_pos hi0, if_neg hj0] at hf
        omega
    · by_cases hj0 : j % st = 0
      · rw [if_neg hi0, if_pos hj0] at hf
        omega
      · have h1 : i + 1 = n := hi2.resolve_left hi0
        have h2 : j + 1 = n := hj2.resolve_left hj0
        omega
  have hsub : ((List.range n).filter
      (fun i => decide (i % st = 0) || decide (i + 1 = n))).map
        (fun i => if i % st = 0 then i / st else 10) ⊆ List.range 11 := by
    intro k hk
    obtain ⟨i, hi, rfl⟩ := List.mem_map.mp hk
    obtain ⟨hin, -⟩ := hmem i hi
    have hi10 : i / st < 10 := (Nat.div_lt_iff_lt_mul (by omega)).mpr (by omega)
    rw [List.mem_range]
    split_ifs <;> omega
  have hle := (List.subperm_of_subset (List.Nodup.map_on hinj hnodup) hsub).length_le
  simpa using hle

end SolarCalc
